import Mathlib

/-!
# Verification of the UBIBoot FAT32 loader (`src/fat.c`)

This file shallowly embeds the FAT32 read-only loader of UBIBoot
(`get_first_partition`, `process_boot_sector`, `load_from_cluster`,
`find_file`, `mmc_load_kernel` from `src/fat.c`) and proves properties
about it.

Modelling conventions:

* The block device (`mmc_block_read` from the external MMC driver) is a
  structure `Mmc` giving, for every sector, its contents under the view the
  code uses (raw MBR fields, boot-sector fields, 32-bit FAT words, 32-byte
  directory entries), plus a success predicate `readOk` for reads.
  The struct layouts themselves live in headers that are not part of the
  repository snapshot (`fat.h`, `config.h`); per the spec these are the
  standard on-disk formats, so the device exposes the decoded fields
  directly (field-level faithfulness; claims never depend on byte offsets).
* Every call to the block driver and every serial diagnostic is recorded in
  an event trace (`Ev`); device reads are tagged with the issuing call site
  (MBR/boot-sector read, FAT-sector read, data read) so that read-counting
  claims can be stated by filtering the trace.
* All C arithmetic on `uint32_t` is carried out on `Nat` with explicit
  reduction `% 2^32` (`u32`); the mask `& 0x0fffffff` on FAT entries is
  `% 2^28` (`mask28`); `0x0fffffff = 2^28 - 1`.
* The unbounded `while` loops of `load_from_cluster` are embedded with an
  explicit fuel parameter; running out of fuel is a distinguished result
  (`LoadRes.noFuel`), never confused with the C function's error return
  (`NULL`, modelled as `LoadRes.fail`).
* The uninitialised stack buffer `uint32_t sector[...]` of
  `load_from_cluster` is an explicit parameter `ibuf` (arbitrary initial
  contents), because the cached-FAT-sector marker is initialised to
  `(uint32_t)-1` and a FAT sector numerically equal to `0xFFFFFFFF` would
  make the code use the buffer without reading it.
-/

set_option autoImplicit false

namespace UBIBoot

/-- Reduction of C `uint32_t` arithmetic: value modulo `2^32`. -/
def u32 (n : Nat) : Nat := n % 4294967296

/-- The mask `& 0x0fffffff` applied to FAT entries (`0x0fffffff = 2^28 - 1`),
i.e. reduction modulo `2^28`. -/
def mask28 (n : Nat) : Nat := n % 268435456

/-- Modelled from the spec (the constant comes from the missing `config.h`):
the fixed sector size in bytes; the spec fixes it as a system constant and
the standard FAT sector size is 512. -/
def FAT_BLOCK_SIZE : Nat := 512

/-- Observable events of one load operation: device reads (tagged with the
issuing call site) and serial diagnostics.  `read` is the sector read issued
by `get_first_partition` / `process_boot_sector`, `readFat` a FAT-sector
read and `readData` a file-data read inside `load_from_cluster`; `puti c`
is `SERIAL_PUTI(c)` and `puts` a `SERIAL_PUTS` message. -/
inductive Ev where
  | read (start count : Nat)
  | readFat (sector : Nat)
  | readData (start count : Nat)
  | puti (code : Nat)
  | puts
deriving DecidableEq, Repr

/-- First-partition entry of the MBR: the two fields `src/fat.c` reads. -/
structure partition_entry where
  status : Nat
  lba : Nat
deriving DecidableEq

/-- The `struct mbr` view of sector 0: four partition entries and the
trailing 16-bit signature. -/
structure mbr where
  partitions : Fin 4 → partition_entry
  signature : Nat

/-- The `struct boot_sector` fields `src/fat.c` reads. -/
structure boot_sector where
  reserved : Nat
  cluster_size : Nat
  fats : Nat
  fat32_length : Nat
  root_cluster : Nat
deriving DecidableEq

/-- The `struct volume_info` field `src/fat.c` reads: the filesystem-type
tag bytes. -/
structure volume_info where
  fs_type : List Nat
deriving DecidableEq

/-- A 32-byte FAT directory entry: the fields `src/fat.c` reads.  `name` is
the 11-byte `8.3` name field (8-byte base plus 3-byte extension, which are
contiguous in the on-disk record). -/
structure dir_entry where
  name : List Nat
  attr : Nat
  starthi : Nat
  start : Nat
deriving DecidableEq

/-- Modelled from the spec (the constants come from the missing `fat.h`):
the standard FAT attribute bit for volume labels. -/
def ATTR_VOLUME : Nat := 8

/-- Modelled from the spec (the constants come from the missing `fat.h`):
the standard FAT attribute bit for directories. -/
def ATTR_DIR : Nat := 16

/-- The block device: per-sector decoded views plus a read-success
predicate.  `readOk start count` tells whether `mmc_block_read(id, buf,
start, count)` returns 0; `word s i` is the `i`-th 32-bit little-endian
word of sector `s` (the view used for FAT sectors); `dirEnt s j` is the
`j`-th 32-byte directory entry of sector `s` (the view used for loaded
directory data). -/
structure Mmc where
  readOk : Nat → Nat → Bool
  mbr : mbr
  bs : Nat → boot_sector
  vinfo : Nat → volume_info
  word : Nat → Nat → Nat
  dirEnt : Nat → Nat → dir_entry

/-- The four process-wide geometry globals of `src/fat.c`:
`lba_fat1`, `lba_data`, `root_cluster`, `cluster_size`. -/
structure Geo where
  lba_fat1 : Nat
  lba_data : Nat
  root_cluster : Nat
  cluster_size : Nat
deriving DecidableEq

/-- C `strncmp(a, b, n) == 0`, on byte lists, comparing from index `i` with
`n` bytes remaining: equal until `n` bytes compared, a difference found, or
a common NUL byte reached (bytes beyond a list are NUL, matching the
NUL-terminated C strings passed to `strncmp`). -/
def strncmpEq (a b : List Nat) : Nat → Nat → Bool
  | _, 0 => true
  | i, n+1 =>
    if a.getD i 0 ≠ b.getD i 0 then false
    else if a.getD i 0 = 0 then true
    else strncmpEq a b (i+1) n

/-- The byte string `"FAT32"` compared against the volume-info tag. -/
def fat32Tag : List Nat := [70, 65, 84, 51, 50]

/-- `get_first_partition` of `src/fat.c`: reads sector 0, validates the MBR
signature `0xAA55` (= 43605) and the first partition's status byte
(`0` or `0x80` = 128), and returns that entry's starting LBA.  The returned
trace records the single device read and any diagnostic code. -/
def get_first_partition (dev : Mmc) : List Ev × Option Nat :=
  if dev.readOk 0 1 = false then ([Ev.read 0 1, Ev.puti 0], none)
  else if dev.mbr.signature ≠ 43605 then ([Ev.read 0 1, Ev.puti 1], none)
  else if (dev.mbr.partitions 0).status ≠ 0 ∧ (dev.mbr.partitions 0).status ≠ 128 then
    ([Ev.read 0 1, Ev.puti 2], none)
  else ([Ev.read 0 1], some (dev.mbr.partitions 0).lba)

/-- `process_boot_sector` of `src/fat.c`: reads one sector at `lba`,
assigns the four geometry globals from the boot-sector fields, and then
checks the filesystem-type tag against `"FAT32"` (first 5 bytes).  `g` is
the prior value of the globals; the returned `Geo` is their value after the
call.  Note the source assigns the globals before the tag check. -/
def process_boot_sector (dev : Mmc) (lba : Nat) (g : Geo) :
    List Ev × Geo × Option Unit :=
  if dev.readOk lba 1 = false then ([Ev.read lba 1, Ev.puti 3], g, none)
  else
    let bs := dev.bs lba
    let g' : Geo :=
      { lba_fat1 := u32 (lba + bs.reserved)
        lba_data := u32 (u32 (lba + bs.reserved) + u32 (bs.fat32_length * bs.fats))
        root_cluster := bs.root_cluster
        cluster_size := bs.cluster_size }
    if strncmpEq (dev.vinfo lba).fs_type fat32Tag 0 5 = false then
      ([Ev.read lba 1, Ev.puti 5], g', none)
    else ([Ev.read lba 1, Ev.puts], g', some ())

/-! ## The cluster-chain loader `load_from_cluster` -/

/-- The FAT sector holding the entry of cluster `c`:
`lba_fat1 + cluster / (FAT_BLOCK_SIZE >> 2)` in `uint32_t` arithmetic. -/
def fatSec (geo : Geo) (c : Nat) : Nat :=
  u32 (geo.lba_fat1 + c / (FAT_BLOCK_SIZE >>> 2))

/-- The masked FAT entry of cluster `c` as the code computes it:
`sector[cluster % (FAT_BLOCK_SIZE >> 2)] & 0x0fffffff` with `sector` freshly
read from `fatSec geo c`. -/
def fatEnt (dev : Mmc) (geo : Geo) (c : Nat) : Nat :=
  mask28 (dev.word (fatSec geo c) (c % (FAT_BLOCK_SIZE >>> 2)))

/-- The first data sector of cluster `c`:
`lba_data + (cluster - 2) * cluster_size` in `uint32_t` arithmetic
(`c - 2` wraps modulo `2^32` for `c ≤ 1`; `4294967294 = 2^32 - 2`). -/
def dataSec (geo : Geo) (c : Nat) : Nat :=
  u32 (geo.lba_data + u32 (u32 (c + 4294967294) * geo.cluster_size))

/-- Result of the inner (batch-sizing) loop of `load_from_cluster`: on a
normal break it carries the breaking successor cluster, the cached FAT
sector, the accumulated `num_data_sectors` and the buffer contents. -/
inductive InnerRes where
  | ok (cluster cached num : Nat) (buf : Nat → Nat)
  | fail
  | noFuel

/-- The inner loop of `load_from_cluster` (lines 84–103 of `src/fat.c`):
looks up the FAT entry of `cluster` (re-reading the FAT sector only when it
differs from `cached`), and while the masked successor equals
`cluster + 1` (in `uint32_t` arithmetic) extends the batch by
`cluster_size` sectors; breaks with the first non-contiguous successor.
`buf` is the current contents of the `sector[]` buffer as a word map. -/
def load_inner (dev : Mmc) (geo : Geo) :
    Nat → Nat → Nat → Nat → (Nat → Nat) → List Ev × InnerRes
  | 0, _, _, _, _ => ([], .noFuel)
  | fuel+1, cluster, cached, num, buf =>
    let fs := fatSec geo cluster
    if fs ≠ cached ∧ dev.readOk fs 1 = false then
      ([Ev.readFat fs, Ev.puti 4], .fail)
    else
      let evs0 : List Ev := if fs ≠ cached then [Ev.readFat fs] else []
      let buf' : Nat → Nat := if fs ≠ cached then dev.word fs else buf
      let succ := mask28 (buf' (cluster % (FAT_BLOCK_SIZE >>> 2)))
      if succ = u32 (cluster + 1) then
        let r := load_inner dev geo fuel succ fs (u32 (num + geo.cluster_size)) buf'
        (evs0 ++ r.1, r.2)
      else
        (evs0, .ok succ fs num buf')

/-- Result of `load_from_cluster`: `ok a` is a normal return of the final
destination pointer `a`; `fail` is the C function's `NULL` return after a
failed device read; `noFuel` marks fuel exhaustion of the embedding. -/
inductive LoadRes where
  | ok (endAddr : Nat)
  | fail
  | noFuel
deriving DecidableEq, Repr

/-- The outer loop of `load_from_cluster` (lines 76–115 of `src/fat.c`):
each iteration fixes the batch's data sector from the current cluster, runs
the inner loop to size the batch, issues one batched data read, advances
the destination pointer by `num * FAT_BLOCK_SIZE` bytes (product taken in
`uint32_t` arithmetic), and terminates when the breaking successor is `≥
0x0ffffff0` (= 268435440) or `≤ 1`.  Returns the trace, the list of data
sectors read in order, and the result. -/
def load_outer (dev : Mmc) (geo : Geo) :
    Nat → Nat → Nat → Nat → (Nat → Nat) → List Ev × List Nat × LoadRes
  | 0, _, _, _, _ => ([], [], .noFuel)
  | fuel+1, cluster, cached, addr, buf =>
    let ds := dataSec geo cluster
    let ir := load_inner dev geo (fuel+1) cluster cached geo.cluster_size buf
    match ir.2 with
    | .noFuel => (ir.1, [], .noFuel)
    | .fail => (ir.1, [], .fail)
    | .ok cluster' cached' num buf' =>
      if dev.readOk ds num = false then
        (ir.1 ++ [Ev.readData ds num, Ev.puti 3], [], .fail)
      else
        let secs := (List.range num).map (fun i => ds + i)
        let addr' := addr + u32 (num * FAT_BLOCK_SIZE)
        if 268435440 ≤ cluster' ∨ cluster' ≤ 1 then
          (ir.1 ++ [Ev.readData ds num], secs, .ok addr')
        else
          let rest := load_outer dev geo fuel cluster' cached' addr' buf'
          (ir.1 ++ [Ev.readData ds num] ++ rest.1, secs ++ rest.2.1, rest.2.2)

/-- `load_from_cluster` of `src/fat.c`: follows the FAT chain from
`cluster` (a `uint32_t`, hence reduced by `u32`), coalescing consecutive
clusters into batched reads, with the cached-FAT-sector marker initialised
to `(uint32_t)-1 = 4294967295` and the uninitialised stack buffer `ibuf`. -/
def load_from_cluster (dev : Mmc) (geo : Geo) (fuel cluster ld_addr : Nat)
    (ibuf : Nat → Nat) : List Ev × List Nat × LoadRes :=
  load_outer dev geo fuel (u32 cluster) 4294967295 ld_addr ibuf

/-- Boolean test for a normal `load_from_cluster` return. -/
def LoadRes.isOk : LoadRes → Bool
  | .ok _ => true
  | _ => false

/-- Test for a data-read event. -/
def Ev.isData : Ev → Bool
  | .readData _ _ => true
  | _ => false

/-- Test for a FAT-sector-read event. -/
def Ev.isFat : Ev → Bool
  | .readFat _ => true
  | _ => false

/-- Test for any device-read event (any call into `mmc_block_read`,
regardless of the issuing site). -/
def Ev.isRead : Ev → Bool
  | .read _ _ => true
  | .readFat _ => true
  | .readData _ _ => true
  | _ => false

/-! ## Abstract cluster chains

A terminated chain is presented as a list of maximal runs `(s, len)` of
consecutive cluster numbers (`s, s+1, …, s+len-1`) followed by a
terminating FAT value `t` (`≥ 0x0ffffff0` or `≤ 1`).  `ChainOk` states
that the device's FAT realises exactly this chain, that all clusters are
valid data clusters, that the relevant device reads succeed, and that each
run's final FAT value is genuinely non-contiguous (which is what makes the
runs maximal and the termination visible to the code). -/

/-- The first cluster of the next run, or the terminating value after the
last run. -/
def nextStart : List (Nat × Nat) → Nat → Nat
  | [], t => t
  | (s, _) :: _, _ => s

/-- Total number of clusters of a run list. -/
def sumLen : List (Nat × Nat) → Nat
  | [] => 0
  | (_, len) :: rest => len + sumLen rest

/-- Conditions on one maximal run `(s, len)` whose breaking FAT value is
`nxt`: the run consists of valid data clusters, the FAT links
`s → s+1 → … → s+len-1 → nxt` hold with `nxt` non-contiguous, the batch
size does not overflow `uint32_t` arithmetic, the FAT sectors involved are
readable and distinct from the impossible cache marker `0xFFFFFFFF`, and
the batched data read succeeds. -/
def chainOkRun (dev : Mmc) (geo : Geo) (s len nxt : Nat) : Prop :=
  1 ≤ len ∧ 2 ≤ s ∧ s + len ≤ 268435440 ∧
  len * geo.cluster_size * 512 < 4294967296 ∧
  (∀ i, i < len - 1 → fatEnt dev geo (s + i) = s + i + 1) ∧
  (∀ i, i < len → fatSec geo (s + i) ≠ 4294967295 ∧
    dev.readOk (fatSec geo (s + i)) 1 = true) ∧
  dev.readOk (dataSec geo s) (len * geo.cluster_size) = true ∧
  fatEnt dev geo (s + (len - 1)) = nxt ∧ nxt ≠ s + len

instance (dev : Mmc) (geo : Geo) (s len nxt : Nat) :
    Decidable (chainOkRun dev geo s len nxt) := by
  unfold chainOkRun; infer_instance

/-- The device's FAT realises the terminated chain given by the run list,
with all reads succeeding (see `chainOkRun`). -/
def ChainOk (dev : Mmc) (geo : Geo) : List (Nat × Nat) → Nat → Prop
  | [], t => 268435440 ≤ t ∨ t ≤ 1
  | (s, len) :: rest, t =>
    chainOkRun dev geo s len (nextStart rest t) ∧ ChainOk dev geo rest t

/-- Decidability of `ChainOk`, so witnesses can be checked by `decide`. -/
def ChainOk.dec (dev : Mmc) (geo : Geo) :
    (runs : List (Nat × Nat)) → (t : Nat) → Decidable (ChainOk dev geo runs t)
  | [], t => inferInstanceAs (Decidable (268435440 ≤ t ∨ t ≤ 1))
  | (s, len) :: rest, t =>
    @instDecidableAnd (chainOkRun dev geo s len (nextStart rest t))
      (ChainOk dev geo rest t) inferInstance (ChainOk.dec dev geo rest t)

instance (dev : Mmc) (geo : Geo) (runs : List (Nat × Nat)) (t : Nat) :
    Decidable (ChainOk dev geo runs t) := ChainOk.dec dev geo runs t

/-- Mirror of the FAT-sector reads performed by `len` successive cluster
lookups starting at cluster `c` with cache marker `cached`: a read is
issued exactly when the entry's sector differs from the marker. -/
def fatReadEvs (geo : Geo) : Nat → Nat → Nat → List Ev
  | _, _, 0 => []
  | cached, c, len+1 =>
    (if fatSec geo c ≠ cached then [Ev.readFat (fatSec geo c)] else [])
      ++ fatReadEvs geo (fatSec geo c) (c + 1) len

/-- `j`-fold increment of `num` by `cluster_size`, each step reduced modulo
`2^32` exactly as `num_data_sectors += cluster_size` is. -/
def addN (cs : Nat) : Nat → Nat → Nat
  | num, 0 => num
  | num, j+1 => addN cs (u32 (num + cs)) j

/-- The full event trace of loading the given chain, starting with cache
marker `cached`: per run, its FAT-sector reads followed by its single
batched data read. -/
def chainEvs (geo : Geo) : Nat → List (Nat × Nat) → List Ev
  | _, [] => []
  | cached, (s, len) :: rest =>
    fatReadEvs geo cached s len
      ++ [Ev.readData (dataSec geo s) (len * geo.cluster_size)]
      ++ chainEvs geo (fatSec geo (s + (len - 1))) rest

/-- The data sectors loaded for the given chain, in order. -/
def chainSecs (geo : Geo) : List (Nat × Nat) → List Nat
  | [] => []
  | (s, len) :: rest =>
    (List.range (len * geo.cluster_size)).map (fun i => dataSec geo s + i)
      ++ chainSecs geo rest

/-! ## Directory search `find_file` -/

/-- `find_file` of `src/fat.c`: scans the entries from `first` to `end`
(here: a list), stopping at the first entry whose name starts with a NUL
byte, skipping entries with the volume-label or directory attribute bits,
and returning the first entry whose name matches the searched name under
`strncmp(entry->name, name, 8 + 3)`. -/
def find_file : List dir_entry → List Nat → Option dir_entry
  | [], _ => none
  | e :: rest, name =>
    if e.name.getD 0 0 = 0 then none
    else if e.attr &&& (ATTR_VOLUME ||| ATTR_DIR) ≠ 0 then find_file rest name
    else if strncmpEq e.name name 0 11 then some e
    else find_file rest name

/-! ## Kernel load orchestrator `mmc_load_kernel` -/

/-- Modelled from the spec (the names come from the missing `config.h`):
the two well-known candidate 8.3 filenames `FAT_BOOTFILE_NAME` and
`FAT_BOOTFILE_ALT_NAME`. -/
structure Config where
  FAT_BOOTFILE_NAME : List Nat
  FAT_BOOTFILE_ALT_NAME : List Nat

/-- C double negation `!!x` of an `int`, as used in `i == !!alt`. -/
def cBool (x : Int) : Nat := if x = 0 then 0 else 1

/-- C logical negation `!x` of an `int`, as used in `return i == !alt`. -/
def cNot (x : Int) : Nat := if x = 0 then 1 else 0

/-- The starting cluster of a directory entry:
`entry->starthi << 16 | entry->start`. -/
def start_cluster (e : dir_entry) : Nat := (e.starthi <<< 16) ||| e.start

/-- The loaded memory region `[dir_start, dir_end)` viewed as an array of
32-byte directory entries: the data sectors were loaded consecutively and
each 512-byte sector holds 16 entries. -/
def entriesOfSecs (dev : Mmc) (secs : List Nat) : List dir_entry :=
  (secs.map (fun s => (List.range 16).map (fun j => dev.dirEnt s j))).flatten

/-- The candidate-trial loop of `mmc_load_kernel` (lines 158–187 of
`src/fat.c`), counting down the remaining iterations `r` (so `i = 2 - r`).
State: `i` the loop index, `dirOpt` the entries of the loaded root
directory (`none` encodes `dir_start == NULL`), `err` the remembered error,
`k` the index of the next fresh stack buffer in `ibuf` (one per
`load_from_cluster` call).  After the loop the function returns `err` if it
is set, otherwise emits diagnostic 7 and returns `-1`. -/
def mlk_loop (dev : Mmc) (cfg : Config) (geo : Geo) (fuel ld_addr : Nat)
    (alt : Int) (ibuf : Nat → Nat → Nat) :
    Nat → Nat → Option (List dir_entry) → Int → Nat → List Ev × Option Int
  | 0, _, _, err, _ => if err ≠ 0 then ([], some err) else ([Ev.puti 7], some (-1))
  | r+1, i, dirOpt, err, k =>
    let ld : List Ev × (Option Int ⊕ (List dir_entry × Nat)) :=
      match dirOpt with
      | some d => ([], Sum.inr (d, k))
      | none =>
        let l := load_from_cluster dev geo fuel geo.root_cluster ld_addr (ibuf k)
        match l.2.2 with
        | .ok _ => (l.1, Sum.inr (entriesOfSecs dev l.2.1, k+1))
        | .fail => (l.1, Sum.inl (some (-1)))
        | .noFuel => (l.1, Sum.inl none)
    match ld.2 with
    | Sum.inl res => (ld.1, res)
    | Sum.inr (d, k') =>
      let entry :=
        if i = cBool alt then find_file d cfg.FAT_BOOTFILE_NAME
        else find_file d cfg.FAT_BOOTFILE_ALT_NAME
      match entry with
      | none =>
        let nxt := mlk_loop dev cfg geo fuel ld_addr alt ibuf r (i+1) (some d) err k'
        (ld.1 ++ nxt.1, nxt.2)
      | some e =>
        let l2 := load_from_cluster dev geo fuel (start_cluster e) ld_addr (ibuf k')
        match l2.2.2 with
        | .ok _ =>
          (ld.1 ++ [Ev.puts] ++ l2.1, some (if i = cNot alt then 1 else 0))
        | .noFuel => (ld.1 ++ [Ev.puts] ++ l2.1, none)
        | .fail =>
          let nxt := mlk_loop dev cfg geo fuel ld_addr alt ibuf r (i+1) none (-1) (k'+1)
          (ld.1 ++ [Ev.puts] ++ l2.1 ++ nxt.1, nxt.2)

/-- `mmc_load_kernel` of `src/fat.c`: locates the first partition, parses
the boot sector (geometry globals start out as `g0`), then tries the two
candidate filenames in the order selected by `alt`.  Result `some 0` /
`some 1` reports a successful load of the primary / alternate candidate,
`some (-1)` is failure; `none` marks fuel exhaustion of the embedding. -/
def mmc_load_kernel (dev : Mmc) (cfg : Config) (fuel ld_addr : Nat)
    (alt : Int) (g0 : Geo) (ibuf : Nat → Nat → Nat) : List Ev × Option Int :=
  let p := get_first_partition dev
  match p.2 with
  | none => (p.1, some (-1))
  | some lba =>
    let b := process_boot_sector dev lba g0
    match b.2.2 with
    | none => (p.1 ++ b.1, some (-1))
    | some _ =>
      let l := mlk_loop dev cfg b.2.1 fuel ld_addr alt ibuf 2 0 none 0 0
      (p.1 ++ b.1 ++ l.1, l.2)


/-- Non-termination of a `load_from_cluster` call: every fuel bound is
exhausted, i.e. the C loop never exits. -/
def NeverTerminates (dev : Mmc) (geo : Geo) (cluster ld_addr : Nat)
    (ibuf : Nat → Nat) : Prop :=
  ∀ fuel, (load_from_cluster dev geo fuel cluster ld_addr ibuf).2.2 = LoadRes.noFuel

/-! ## Concrete devices used for witnesses and counterexamples -/

/-- The byte string `"KERNEL  BIN"`, used as the primary candidate name. -/
def nameK : List Nat := [75, 69, 82, 78, 69, 76, 32, 32, 66, 73, 78]

/-- The byte string `"ALTKERN BIN"`, used as the alternate candidate name. -/
def nameA : List Nat := [65, 76, 84, 75, 69, 82, 78, 32, 66, 73, 78]

/-- Candidate-name configuration for the concrete scenarios. -/
def cfgW : Config := ⟨nameK, nameA⟩

/-- Root-directory entry of the kernel file, starting at cluster 3. -/
def entK : dir_entry := ⟨nameK, 0, 0, 3⟩

/-- An end-of-directory marker entry (name starts with a NUL byte). -/
def entZ : dir_entry := ⟨[0], 0, 0, 0⟩

/-- The all-reads-succeed flag. -/
def rdOk : Nat → Nat → Bool := fun _ _ => true

/-- An arbitrary initial stack-buffer assignment (all zero). -/
def ibW : Nat → Nat → Nat := fun _ _ => 0

/-- A healthy one-partition FAT32 device: partition at sector 1, one
reserved sector and a one-sector FAT, so `lba_fat1 = 2` and `lba_data = 3`;
one-sector clusters; every FAT entry is the end-of-chain value
`0x0ffffff8`, so every file is a single cluster; the root directory
(cluster 2, sector 3) holds `entK` and terminator entries. -/
def devW : Mmc :=
  { readOk := rdOk
    mbr := { partitions := fun _ => ⟨0, 1⟩, signature := 43605 }
    bs := fun _ =>
      { reserved := 1, cluster_size := 1, fats := 1, fat32_length := 1
        root_cluster := 2 }
    vinfo := fun _ => ⟨fat32Tag⟩
    word := fun _ _ => 268435448
    dirEnt := fun s j => if s = 3 ∧ j = 0 then entK else entZ }

/-- Like `devW` but the kernel file's data read (sector 4) fails, so the
kernel chain load fails after the directory entry was found. -/
def devF : Mmc :=
  { readOk := fun s _ => if s = 4 then false else true
    mbr := { partitions := fun _ => ⟨0, 1⟩, signature := 43605 }
    bs := fun _ =>
      { reserved := 1, cluster_size := 1, fats := 1, fat32_length := 1
        root_cluster := 2 }
    vinfo := fun _ => ⟨fat32Tag⟩
    word := fun _ _ => 268435448
    dirEnt := fun s j => if s = 3 ∧ j = 0 then entK else entZ }

/-- Geometry with `lba_fat1 = 0`, `lba_data = 0`, one-sector clusters,
used by the direct `load_from_cluster` scenarios. -/
def geoM : Geo := ⟨0, 0, 2, 1⟩

/-- FAT for the one-cluster chain `[0x0fffffef]` whose end-of-chain entry
is the sentinel `0x0ffffff0 = 0x0fffffef + 1`: numerically contiguous, so
the code absorbs the sentinel into the batch.  Entry `0x0fffffef` (word
111 of FAT sector 2097151) is `0x0ffffff0`; entry `0x0ffffff0` (word 112)
is `0x0ffffff8`, a non-contiguous sentinel. -/
def devC2x : Mmc :=
  { readOk := rdOk
    mbr := { partitions := fun _ => ⟨0, 1⟩, signature := 43605 }
    bs := fun _ => ⟨1, 1, 1, 1, 2⟩
    vinfo := fun _ => ⟨fat32Tag⟩
    word := fun _ i => if i = 111 then 268435440 else if i = 112 then 268435448 else 0
    dirEnt := fun _ _ => entZ }

/-- FAT realising a two-cluster cycle for the chain starting at
`0x0fffffef`: entry `0x0fffffef` is the end-of-chain sentinel
`0x0ffffff0` (but numerically contiguous, so absorbed), and entry
`0x0ffffff0` points back to `0x0fffffef`, so the loop never observes a
terminating value. -/
def devCyc : Mmc :=
  { readOk := rdOk
    mbr := { partitions := fun _ => ⟨0, 1⟩, signature := 43605 }
    bs := fun _ => ⟨1, 1, 1, 1, 2⟩
    vinfo := fun _ => ⟨fat32Tag⟩
    word := fun _ i => if i = 111 then 268435440 else if i = 112 then 268435439 else 0
    dirEnt := fun _ _ => entZ }

/-- FAT with `fat[1] = 2` (numerically contiguous to start cluster 1) and
`fat[2] = 0x0ffffff8` (end of chain), used against claim C10 with the
geometry `⟨100, 200, 2, 4⟩`. -/
def devC10x : Mmc :=
  { readOk := rdOk
    mbr := { partitions := fun _ => ⟨0, 1⟩, signature := 43605 }
    bs := fun _ => ⟨1, 1, 1, 1, 2⟩
    vinfo := fun _ => ⟨fat32Tag⟩
    word := fun _ i => if i = 1 then 2 else if i = 2 then 268435448 else 0
    dirEnt := fun _ _ => entZ }

/-- FAT with `fat[1] = 0x0ffffff8` (a non-contiguous end-of-chain value
for start cluster 1), used for the amended claim C10 with geometry
`⟨100, 200, 2, 4⟩`. -/
def devC10w : Mmc :=
  { readOk := rdOk
    mbr := { partitions := fun _ => ⟨0, 1⟩, signature := 43605 }
    bs := fun _ => ⟨1, 1, 1, 1, 2⟩
    vinfo := fun _ => ⟨fat32Tag⟩
    word := fun _ i => if i = 1 then 268435448 else 0
    dirEnt := fun _ _ => entZ }

/-- FAT realising the two-run chain `[10], [15]` (`fat[10] = 15`,
`fat[15]` = end of chain): the non-contiguous example of claim C2. -/
def devC2w : Mmc :=
  { readOk := rdOk
    mbr := { partitions := fun _ => ⟨0, 1⟩, signature := 43605 }
    bs := fun _ => ⟨1, 1, 1, 1, 2⟩
    vinfo := fun _ => ⟨fat32Tag⟩
    word := fun _ i => if i = 10 then 15 else if i = 15 then 268435448 else 0
    dirEnt := fun _ _ => entZ }

/-- FAT realising the chain `[10, 11], [20]` (a two-cluster run then a
non-contiguous single cluster, then end of chain). -/
def devC3w : Mmc :=
  { readOk := rdOk
    mbr := { partitions := fun _ => ⟨0, 1⟩, signature := 43605 }
    bs := fun _ => ⟨1, 1, 1, 1, 2⟩
    vinfo := fun _ => ⟨fat32Tag⟩
    word := fun _ i =>
      if i = 10 then 11 else if i = 11 then 20
      else if i = 20 then 268435448 else 0
    dirEnt := fun _ _ => entZ }

/-- FAT realising the contiguous chain `[10, 11, 12]` followed by end of
chain; all three entries lie in FAT sector 0. -/
def devC6w : Mmc :=
  { readOk := rdOk
    mbr := { partitions := fun _ => ⟨0, 1⟩, signature := 43605 }
    bs := fun _ => ⟨1, 1, 1, 1, 2⟩
    vinfo := fun _ => ⟨fat32Tag⟩
    word := fun _ i =>
      if i = 10 then 11 else if i = 11 then 12
      else if i = 12 then 268435448 else 0
    dirEnt := fun _ _ => entZ }

/-- Device whose boot sector is readable but carries a non-FAT32 tag
(`"NONE "`), with boot-sector fields that produce a nonzero geometry. -/
def devC1x : Mmc :=
  { readOk := rdOk
    mbr := { partitions := fun _ => ⟨0, 1⟩, signature := 43605 }
    bs := fun _ => ⟨1, 1, 1, 1, 2⟩
    vinfo := fun _ => ⟨[78, 79, 78, 69, 32]⟩
    word := fun _ _ => 0
    dirEnt := fun _ _ => entZ }

/-- A directory entry whose name has a NUL byte at position 1 and the byte
`1` at position 2, used against the byte-for-byte reading of claim C8. -/
def entN : dir_entry := ⟨[75, 0, 1, 0, 0, 0, 0, 0, 0, 0, 0], 0, 0, 5⟩

/-- A searched name agreeing with `entN.name` up to the shared NUL byte at
position 1 but differing at position 2. -/
def nameN : List Nat := [75, 0, 2, 0, 0, 0, 0, 0, 0, 0, 0]

/-! ## Helper theorems -/

/-! ### Arithmetic helpers -/

theorem u32_eq_of_lt {n : Nat} (h : n < 4294967296) : u32 n = n :=
  Nat.mod_eq_of_lt h

theorem fatEnt_lt (dev : Mmc) (geo : Geo) (c : Nat) :
    fatEnt dev geo c < 268435456 :=
  Nat.mod_lt _ (by norm_num)

theorem u32_u32_add (a b : Nat) : u32 (u32 a + b) = u32 (a + b) :=
  Nat.mod_add_mod a 4294967296 b

theorem u32_lt (a : Nat) : u32 a < 4294967296 :=
  Nat.mod_lt _ (by norm_num)

theorem addN_eq (cs : Nat) : ∀ (j num : Nat), num < 4294967296 →
    addN cs num j = u32 (num + j * cs) := by
  intro j
  induction j with
  | zero => intro num h; simp [addN, u32_eq_of_lt h]
  | succ n ih =>
    intro num h
    rw [addN, ih (u32 (num + cs)) (u32_lt _), u32_u32_add]
    congr 1
    ring

/-! ### One-step and whole-run characterisation of the inner loop -/

/-- One step of the inner loop, under a readable FAT sector and a
consistent cache (the buffer holds the cached sector's contents, or the
cache marker is still the initial impossible value): the successor is the
masked FAT entry, the buffer afterwards holds the entry's sector. -/
theorem load_inner_step (dev : Mmc) (geo : Geo) (f c cached num : Nat)
    (buf : Nat → Nat)
    (h1 : fatSec geo c ≠ 4294967295)
    (h2 : dev.readOk (fatSec geo c) 1 = true)
    (hbuf : cached = 4294967295 ∨ buf = dev.word cached) :
    load_inner dev geo (f+1) c cached num buf =
      (if fatEnt dev geo c = u32 (c + 1) then
        ((if fatSec geo c ≠ cached then [Ev.readFat (fatSec geo c)] else [])
          ++ (load_inner dev geo f (fatEnt dev geo c) (fatSec geo c)
                (u32 (num + geo.cluster_size)) (dev.word (fatSec geo c))).1,
         (load_inner dev geo f (fatEnt dev geo c) (fatSec geo c)
                (u32 (num + geo.cluster_size)) (dev.word (fatSec geo c))).2)
      else
        ((if fatSec geo c ≠ cached then [Ev.readFat (fatSec geo c)] else []),
         .ok (fatEnt dev geo c) (fatSec geo c) num (dev.word (fatSec geo c)))) := by
  have hbw : (if fatSec geo c ≠ cached then dev.word (fatSec geo c) else buf)
      = dev.word (fatSec geo c) := by
    by_cases h : fatSec geo c = cached
    · rcases hbuf with h3 | h3
      · exact absurd (h.trans h3) h1
      · simp [h, h3]
    · simp [h]
  simp only [load_inner]
  rw [if_neg (by simp [h2])]
  rw [hbw]
  rfl

/-- The inner loop over a whole maximal run: starting at cluster `c` whose
next `m` FAT links are contiguous and whose `(m+1)`-st masked entry is the
non-contiguous value `t`, the loop performs `m + 1` lookups (reads mirrored
by `fatReadEvs`), extends the batch `m` times and breaks with successor
`t`, the cache on the last entry's sector and the buffer holding it. -/
theorem load_inner_run (dev : Mmc) (geo : Geo) (t : Nat) :
    ∀ (m c cached num : Nat) (buf : Nat → Nat) (fuel : Nat),
      m + 1 ≤ fuel →
      (∀ i, i < m → fatEnt dev geo (c + i) = c + i + 1) →
      fatEnt dev geo (c + m) = t →
      t ≠ u32 (c + m + 1) →
      (∀ i, i ≤ m → fatSec geo (c + i) ≠ 4294967295 ∧
        dev.readOk (fatSec geo (c + i)) 1 = true) →
      (cached = 4294967295 ∨ buf = dev.word cached) →
      load_inner dev geo fuel c cached num buf =
        (fatReadEvs geo cached c (m + 1),
         .ok t (fatSec geo (c + m)) (addN geo.cluster_size num m)
           (dev.word (fatSec geo (c + m)))) := by
  intro m
  induction m with
  | zero =>
    intro c cached num buf fuel hfuel hent hbrk ht hns hbuf
    obtain ⟨f, rfl⟩ : ∃ f, fuel = f + 1 := ⟨fuel - 1, by omega⟩
    have hbrk' : fatEnt dev geo c = t := by simpa using hbrk
    rw [load_inner_step dev geo f c cached num buf
      (hns 0 (by omega)).1 (hns 0 (by omega)).2 hbuf]
    rw [if_neg (by rw [hbrk']; simpa using ht)]
    simp [fatReadEvs, addN, hbrk']
  | succ n ih =>
    intro c cached num buf fuel hfuel hent hbrk ht hns hbuf
    obtain ⟨f, rfl⟩ : ∃ f, fuel = f + 1 := ⟨fuel - 1, by omega⟩
    rw [load_inner_step dev geo f c cached num buf
      (hns 0 (by omega)).1 (hns 0 (by omega)).2 hbuf]
    have h0 : fatEnt dev geo c = c + 1 := by simpa using hent 0 (by omega)
    have hlt : c + 1 < 268435456 := h0 ▸ fatEnt_lt dev geo c
    rw [if_pos (by rw [h0, u32_eq_of_lt (by omega)])]
    rw [h0]
    rw [ih (c+1) (fatSec geo c) (u32 (num + geo.cluster_size))
      (dev.word (fatSec geo c)) f (by omega)
      (by
        intro i hi
        have h := hent (i+1) (by omega)
        rw [show c + 1 + i = c + (i + 1) from by ring]
        rw [h])
      (by rw [show c + 1 + n = c + (n + 1) from by ring]; exact hbrk)
      (by rw [show c + 1 + n + 1 = c + (n + 1) + 1 from by ring]; exact ht)
      (by
        intro i hi
        rw [show c + 1 + i = c + (i + 1) from by ring]
        exact hns (i+1) (by omega))
      (Or.inr rfl)]
    rw [show c + (n + 1) = c + 1 + n from by ring]
    simp [fatReadEvs, addN]

/-- Master characterisation of the outer loop on an abstract chain: if the
device's FAT realises the terminated run list (`ChainOk`) then the loop
issues, per maximal run, its mirrored FAT-sector reads and exactly one
batched data read of `len * cluster_size` sectors, loads the chain's data
sectors in order, and returns the start address advanced by
`512 * cluster_size * (total clusters)` bytes. -/
theorem load_outer_chain (dev : Mmc) (geo : Geo) (t : Nat) :
    ∀ (rest : List (Nat × Nat)) (s len cached addr fuel : Nat) (buf : Nat → Nat),
      ChainOk dev geo ((s, len) :: rest) t →
      (cached = 4294967295 ∨ buf = dev.word cached) →
      sumLen ((s, len) :: rest) + ((s, len) :: rest).length ≤ fuel →
      load_outer dev geo fuel s cached addr buf =
        (chainEvs geo cached ((s, len) :: rest),
         chainSecs geo ((s, len) :: rest),
         .ok (addr + 512 * geo.cluster_size * sumLen ((s, len) :: rest))) := by
  intro rest
  induction rest with
  | nil =>
    intro s len cached addr fuel buf hco hbuf hfuel
    obtain ⟨hrun, hrest⟩ := hco
    obtain ⟨h1, h2, h3, h4, h5, h6, h7, h8, h9⟩ := hrun
    obtain ⟨l, rfl⟩ : ∃ l, len = l + 1 := ⟨len - 1, by omega⟩
    simp only [sumLen, List.length] at hfuel
    obtain ⟨f, rfl⟩ : ∃ f, fuel = f + 1 := ⟨fuel - 1, by omega⟩
    have hcs : geo.cluster_size < 4294967296 := by
      calc geo.cluster_size ≤ (l + 1) * geo.cluster_size :=
            Nat.le_mul_of_pos_left _ (by omega)
        _ ≤ (l + 1) * geo.cluster_size * 512 :=
            Nat.le_mul_of_pos_right _ (by norm_num)
        _ < 4294967296 := h4
    have hnum : addN geo.cluster_size geo.cluster_size l
        = (l + 1) * geo.cluster_size := by
      rw [addN_eq _ _ _ hcs,
        show geo.cluster_size + l * geo.cluster_size
          = (l + 1) * geo.cluster_size from by ring]
      exact u32_eq_of_lt (by
        calc (l + 1) * geo.cluster_size
            ≤ (l + 1) * geo.cluster_size * 512 :=
              Nat.le_mul_of_pos_right _ (by norm_num)
          _ < 4294967296 := h4)
    simp only [load_outer]
    rw [load_inner_run dev geo (nextStart [] t) l s cached geo.cluster_size buf
      (f + 1) (by omega) (by simpa using h5) (by simpa using h8)
      (by
        rw [show s + l + 1 = s + (l + 1) from by ring,
          u32_eq_of_lt (by omega)]
        simpa [nextStart] using h9)
      (fun i hi => h6 i (by omega)) hbuf]
    dsimp only
    rw [hnum]
    rw [if_neg (by simp [h7])]
    simp only [nextStart]
    have hsent : 268435440 ≤ t ∨ t ≤ 1 := hrest
    rw [if_pos hsent]
    have hoff : u32 ((l + 1) * geo.cluster_size * FAT_BLOCK_SIZE)
        = (l + 1) * geo.cluster_size * 512 := by
      simpa [FAT_BLOCK_SIZE] using u32_eq_of_lt h4
    rw [hoff]
    simp [chainEvs, chainSecs, sumLen]
    ring
  | cons p rest' ih =>
    intro s len cached addr fuel buf hco hbuf hfuel
    obtain ⟨s', len'⟩ := p
    obtain ⟨hrun, hco'⟩ := hco
    obtain ⟨h1, h2, h3, h4, h5, h6, h7, h8, h9⟩ := hrun
    have hrun' := hco'.1
    obtain ⟨h1', h2', h3', _⟩ := hrun'
    obtain ⟨l, rfl⟩ : ∃ l, len = l + 1 := ⟨len - 1, by omega⟩
    simp only [sumLen, List.length] at hfuel
    obtain ⟨f, rfl⟩ : ∃ f, fuel = f + 1 := ⟨fuel - 1, by omega⟩
    have hcs : geo.cluster_size < 4294967296 := by
      calc geo.cluster_size ≤ (l + 1) * geo.cluster_size :=
            Nat.le_mul_of_pos_left _ (by omega)
        _ ≤ (l + 1) * geo.cluster_size * 512 :=
            Nat.le_mul_of_pos_right _ (by norm_num)
        _ < 4294967296 := h4
    have hnum : addN geo.cluster_size geo.cluster_size l
        = (l + 1) * geo.cluster_size := by
      rw [addN_eq _ _ _ hcs,
        show geo.cluster_size + l * geo.cluster_size
          = (l + 1) * geo.cluster_size from by ring]
      exact u32_eq_of_lt (by
        calc (l + 1) * geo.cluster_size
            ≤ (l + 1) * geo.cluster_size * 512 :=
              Nat.le_mul_of_pos_right _ (by norm_num)
          _ < 4294967296 := h4)
    simp only [load_outer]
    rw [load_inner_run dev geo (nextStart ((s', len') :: rest') t) l s cached
      geo.cluster_size buf (f + 1) (by omega) (by simpa using h5)
      (by simpa using h8)
      (by
        rw [show s + l + 1 = s + (l + 1) from by ring,
          u32_eq_of_lt (by omega)]
        simpa [nextStart] using h9)
      (fun i hi => h6 i (by omega)) hbuf]
    dsimp only
    rw [hnum]
    rw [if_neg (by simp [h7])]
    simp only [nextStart] at *
    rw [if_neg (by omega)]
    have hoff : u32 ((l + 1) * geo.cluster_size * FAT_BLOCK_SIZE)
        = (l + 1) * geo.cluster_size * 512 := by
      simpa [FAT_BLOCK_SIZE] using u32_eq_of_lt h4
    rw [hoff]
    rw [ih s' len' (fatSec geo (s + l))
      (addr + (l + 1) * geo.cluster_size * 512) f (dev.word (fatSec geo (s + l)))
      hco' (Or.inr rfl) (by simp only [sumLen, List.length]; omega)]
    simp [chainEvs, chainSecs, sumLen]
    ring

/-- `load_from_cluster` on an abstract chain: instantiation of
`load_outer_chain` at the entry state of the function (cache marker
`(uint32_t)-1`, uninitialised buffer). -/
theorem load_from_cluster_chain (dev : Mmc) (geo : Geo) (t s len : Nat)
    (rest : List (Nat × Nat)) (fuel addr : Nat) (ibuf : Nat → Nat)
    (hco : ChainOk dev geo ((s, len) :: rest) t)
    (hfuel : sumLen ((s, len) :: rest) + ((s, len) :: rest).length ≤ fuel) :
    load_from_cluster dev geo fuel s addr ibuf =
      (chainEvs geo 4294967295 ((s, len) :: rest),
       chainSecs geo ((s, len) :: rest),
       .ok (addr + 512 * geo.cluster_size * sumLen ((s, len) :: rest))) := by
  have h3 : s + len ≤ 268435440 := hco.1.2.2.1
  unfold load_from_cluster
  rw [u32_eq_of_lt (by omega)]
  exact load_outer_chain dev geo t rest s len 4294967295 addr fuel ibuf hco
    (Or.inl rfl) hfuel

/-- `fatReadEvs` contains no data-read events. -/
theorem filter_isData_fatReadEvs (geo : Geo) :
    ∀ (len cached c : Nat),
      (fatReadEvs geo cached c len).filter Ev.isData = [] := by
  intro len
  induction len with
  | zero => intro cached c; simp [fatReadEvs]
  | succ n ih =>
    intro cached c
    by_cases h : fatSec geo c = cached <;>
      simp [fatReadEvs, h, ih, Ev.isData]

/-- `fatReadEvs` consists of FAT-read events only. -/
theorem filter_isFat_fatReadEvs (geo : Geo) :
    ∀ (len cached c : Nat),
      (fatReadEvs geo cached c len).filter Ev.isFat
        = fatReadEvs geo cached c len := by
  intro len
  induction len with
  | zero => intro cached c; simp [fatReadEvs]
  | succ n ih =>
    intro cached c
    by_cases h : fatSec geo c = cached <;>
      simp [fatReadEvs, h, ih, Ev.isFat]

/-- The data reads of a chain trace: exactly one read per maximal run, of
`len * cluster_size` sectors at the run's first data sector. -/
theorem filter_isData_chainEvs (geo : Geo) :
    ∀ (runs : List (Nat × Nat)) (cached : Nat),
      (chainEvs geo cached runs).filter Ev.isData =
        runs.map (fun p => Ev.readData (dataSec geo p.1) (p.2 * geo.cluster_size)) := by
  intro runs
  induction runs with
  | nil => intro cached; simp [chainEvs]
  | cons p rest ih =>
    intro cached
    obtain ⟨s, len⟩ := p
    simp [chainEvs, filter_isData_fatReadEvs, ih, Ev.isData]

/-- Three FAT lookups whose entries lie in the FAT sector of `c` issue a
single FAT-sector read when starting from the impossible cache marker. -/
theorem fatReadEvs_same_sector (geo : Geo) (c : Nat)
    (h1 : fatSec geo (c + 1) = fatSec geo c)
    (h2 : fatSec geo (c + 2) = fatSec geo c)
    (h0 : fatSec geo c ≠ 4294967295) :
    fatReadEvs geo 4294967295 c 3 = [Ev.readFat (fatSec geo c)] := by
  simp [fatReadEvs, h0, h1, h2]

/-- The plain-arithmetic form of `dataSec` when nothing wraps:
`data_region_start + (c - 2) * cluster_size`. -/
theorem dataSec_eq (geo : Geo) (c : Nat) (h2 : 2 ≤ c) (hc : c < 4294967296)
    (h : geo.lba_data + (c - 2) * geo.cluster_size < 4294967296) :
    dataSec geo c = geo.lba_data + (c - 2) * geo.cluster_size := by
  unfold dataSec u32
  have e1 : c + 4294967294 = (c - 2) + 4294967296 := by omega
  rw [e1, Nat.add_mod_right]
  rw [Nat.mod_eq_of_lt (show c - 2 < 4294967296 by omega)]
  rw [Nat.mod_eq_of_lt (show (c - 2) * geo.cluster_size < 4294967296 by omega)]
  exact Nat.mod_eq_of_lt h

/-! ### Unfolding lemmas for the candidate-trial loop -/

/-- Exiting the loop: return the remembered error if set, otherwise emit
diagnostic 7 (kernel file not found) and fail. -/
theorem mlk_loop_done (dev : Mmc) (cfg : Config) (geo : Geo)
    (fuel ld_addr : Nat) (alt : Int) (ibuf : Nat → Nat → Nat)
    (i : Nat) (dirOpt : Option (List dir_entry)) (err : Int) (k : Nat) :
    mlk_loop dev cfg geo fuel ld_addr alt ibuf 0 i dirOpt err k
      = if err ≠ 0 then ([], some err) else ([Ev.puti 7], some (-1)) := rfl

/-- An iteration that must first (re)load the root directory, when that
load succeeds: the trace is prefixed with the load's reads and the
iteration continues with the loaded entries and the next fresh buffer. -/
theorem mlk_loop_none (dev : Mmc) (cfg : Config) (geo : Geo)
    (fuel ld_addr : Nat) (alt : Int) (ibuf : Nat → Nat → Nat)
    (r i : Nat) (err : Int) (k : Nat) (E : List Ev) (S : List Nat) (x : Nat)
    (hr : 1 ≤ r)
    (H : load_from_cluster dev geo fuel geo.root_cluster ld_addr (ibuf k)
      = (E, S, .ok x)) :
    mlk_loop dev cfg geo fuel ld_addr alt ibuf r i none err k
      = (E ++ (mlk_loop dev cfg geo fuel ld_addr alt ibuf r i
            (some (entriesOfSecs dev S)) err (k+1)).1,
         (mlk_loop dev cfg geo fuel ld_addr alt ibuf r i
            (some (entriesOfSecs dev S)) err (k+1)).2) := by
  obtain ⟨r', rfl⟩ : ∃ r', r = r' + 1 := ⟨r - 1, by omega⟩
  conv_lhs => rw [mlk_loop]
  conv_rhs => rw [mlk_loop]
  rw [H]
  dsimp only
  cases hfind : (if i = cBool alt
      then find_file (entriesOfSecs dev S) cfg.FAT_BOOTFILE_NAME
      else find_file (entriesOfSecs dev S) cfg.FAT_BOOTFILE_ALT_NAME) with
  | none => simp
  | some e =>
    cases hl2 : (load_from_cluster dev geo fuel (start_cluster e) ld_addr
        (ibuf (k+1))).2.2 <;> simp [hl2]

/-- An iteration with a loaded directory whose selected candidate is not
found: proceed to the next candidate, keeping the directory. -/
theorem mlk_loop_notfound (dev : Mmc) (cfg : Config) (geo : Geo)
    (fuel ld_addr : Nat) (alt : Int) (ibuf : Nat → Nat → Nat)
    (r i : Nat) (d : List dir_entry) (err : Int) (k : Nat)
    (hr : 1 ≤ r)
    (Hf : (if i = cBool alt then find_file d cfg.FAT_BOOTFILE_NAME
           else find_file d cfg.FAT_BOOTFILE_ALT_NAME) = none) :
    mlk_loop dev cfg geo fuel ld_addr alt ibuf r i (some d) err k
      = mlk_loop dev cfg geo fuel ld_addr alt ibuf (r-1) (i+1) (some d) err k := by
  obtain ⟨r', rfl⟩ : ∃ r', r = r' + 1 := ⟨r - 1, by omega⟩
  conv_lhs => rw [mlk_loop]
  dsimp only
  rw [Hf]
  simp

/-- An iteration whose selected candidate is found and whose chain load
succeeds: return immediately, signalling which candidate was loaded
(`i == !alt` in the source). -/
theorem mlk_loop_found (dev : Mmc) (cfg : Config) (geo : Geo)
    (fuel ld_addr : Nat) (alt : Int) (ibuf : Nat → Nat → Nat)
    (r i : Nat) (d : List dir_entry) (err : Int) (k : Nat)
    (e : dir_entry) (y : Nat)
    (hr : 1 ≤ r)
    (Hf : (if i = cBool alt then find_file d cfg.FAT_BOOTFILE_NAME
           else find_file d cfg.FAT_BOOTFILE_ALT_NAME) = some e)
    (Hl : (load_from_cluster dev geo fuel (start_cluster e) ld_addr
      (ibuf k)).2.2 = .ok y) :
    (mlk_loop dev cfg geo fuel ld_addr alt ibuf r i (some d) err k).2
      = some (if i = cNot alt then 1 else 0) := by
  obtain ⟨r', rfl⟩ : ∃ r', r = r' + 1 := ⟨r - 1, by omega⟩
  conv_lhs => rw [mlk_loop]
  dsimp only
  rw [Hf]
  dsimp only
  rw [Hl]

/-- An iteration whose selected candidate is found but whose chain load
fails: remember the error, discard the directory, and continue — the next
iteration will reload the root directory from the device. -/
theorem mlk_loop_failload (dev : Mmc) (cfg : Config) (geo : Geo)
    (fuel ld_addr : Nat) (alt : Int) (ibuf : Nat → Nat → Nat)
    (r i : Nat) (d : List dir_entry) (err : Int) (k : Nat)
    (e : dir_entry) (E4 : List Ev) (S4 : List Nat)
    (hr : 1 ≤ r)
    (Hf : (if i = cBool alt then find_file d cfg.FAT_BOOTFILE_NAME
           else find_file d cfg.FAT_BOOTFILE_ALT_NAME) = some e)
    (Hl : load_from_cluster dev geo fuel (start_cluster e) ld_addr (ibuf k)
      = (E4, S4, .fail)) :
    mlk_loop dev cfg geo fuel ld_addr alt ibuf r i (some d) err k
      = ([Ev.puts] ++ E4
          ++ (mlk_loop dev cfg geo fuel ld_addr alt ibuf (r-1) (i+1) none (-1) (k+1)).1,
         (mlk_loop dev cfg geo fuel ld_addr alt ibuf (r-1) (i+1) none (-1) (k+1)).2) := by
  obtain ⟨r', rfl⟩ : ∃ r', r = r' + 1 := ⟨r - 1, by omega⟩
  conv_lhs => rw [mlk_loop]
  dsimp only
  rw [Hf]
  dsimp only
  rw [Hl]
  simp

/-! ## Claim theorems -/

/-- Claim C7: for every MBR sector with trailing signature `0xAA55` and
first-partition status byte in `{0x00, 0x80}`, `get_first_partition`
succeeds and returns that entry's starting LBA; for a signature `≠ 0xAA55`
or a status byte outside `{0x00, 0x80}` it fails; and in every case
(success or failure) it issues exactly one device read, of sector 0 only. -/
theorem fat_c7 (dev : Mmc) :
    ((get_first_partition dev).1.filter Ev.isRead = [Ev.read 0 1])
    ∧ (dev.readOk 0 1 = true → dev.mbr.signature = 43605 →
        ((dev.mbr.partitions 0).status = 0 ∨ (dev.mbr.partitions 0).status = 128) →
        (get_first_partition dev).2 = some (dev.mbr.partitions 0).lba)
    ∧ (dev.mbr.signature ≠ 43605 → (get_first_partition dev).2 = none)
    ∧ ((dev.mbr.partitions 0).status ≠ 0 → (dev.mbr.partitions 0).status ≠ 128 →
        (get_first_partition dev).2 = none) := by
  unfold get_first_partition
  split_ifs with h1 h2 h3 <;>
    simp_all [Ev.isRead, List.filter]

/-- Claim C7 witness: on the healthy device the partition at LBA 1 is
returned. -/
theorem fat_c7_witness : (get_first_partition devW).2 = some 1 :=
  (fat_c7 devW).2.1 rfl rfl (Or.inl rfl)

/-- Claim C9: on a successful boot-sector read, `process_boot_sector`
derives the geometry exactly as: first-FAT sector = partition start +
reserved-sector count; data-region start = first-FAT sector +
sectors-per-FAT × FAT count (all in `uint32_t` arithmetic); and it copies
the root-directory cluster and sectors-per-cluster directly from the
boot-sector fields, with no further validation (this holds whether or not
the filesystem-type check subsequently passes). -/
theorem fat_c9 (dev : Mmc) (lba : Nat) (g0 : Geo)
    (h : dev.readOk lba 1 = true) :
    (process_boot_sector dev lba g0).2.1 =
      { lba_fat1 := u32 (lba + (dev.bs lba).reserved)
        lba_data := u32 (u32 (lba + (dev.bs lba).reserved)
          + u32 ((dev.bs lba).fat32_length * (dev.bs lba).fats))
        root_cluster := (dev.bs lba).root_cluster
        cluster_size := (dev.bs lba).cluster_size } := by
  unfold process_boot_sector
  rw [if_neg (by simp [h])]
  split_ifs <;> rfl

/-- Claim C9 witness: on the healthy device (partition start 1, one
reserved sector, one FAT of one sector) the geometry is
`lba_fat1 = 2`, `lba_data = 3`, root cluster 2, cluster size 1. -/
theorem fat_c9_witness :
    (process_boot_sector devW 1 ⟨0, 0, 0, 0⟩).2.1 = ⟨2, 3, 2, 1⟩ := by
  rw [fat_c9 devW 1 ⟨0, 0, 0, 0⟩ rfl]
  decide

/-- Claim C1 counterexample: on a readable boot sector whose
filesystem-type tag is `"NONE "`, `process_boot_sector` fails with
diagnostic 5 (`UnsupportedFilesystem`) but the four geometry values are
NOT left unchanged: starting from the prior geometry `⟨0, 0, 0, 0⟩` the
call leaves them at `⟨1, 2, 2, 1⟩`, derived from the boot-sector fields,
because the source assigns the globals before the tag check
(`src/fat.c:55-58` precede the check at line 61). -/
theorem fat_c1_cex :
    process_boot_sector devC1x 0 ⟨0, 0, 0, 0⟩
      = ([Ev.read 0 1, Ev.puti 5], ⟨1, 2, 2, 1⟩, none)
    ∧ (⟨1, 2, 2, 1⟩ : Geo) ≠ ⟨0, 0, 0, 0⟩ := by
  decide

/-- Claim C1 (amended): for every boot sector whose filesystem-type tag
does not match `"FAT32"` over its first 5 bytes, `process_boot_sector`
fails with `UnsupportedFilesystem` (diagnostic 5), but the four
derived-geometry values have already been overwritten with the values
derived from the boot-sector fields (as in C9) before the check. -/
theorem fat_c1_amended (dev : Mmc) (lba : Nat) (g0 : Geo)
    (h : dev.readOk lba 1 = true)
    (hfs : strncmpEq (dev.vinfo lba).fs_type fat32Tag 0 5 = false) :
    process_boot_sector dev lba g0 =
      ([Ev.read lba 1, Ev.puti 5],
       { lba_fat1 := u32 (lba + (dev.bs lba).reserved)
         lba_data := u32 (u32 (lba + (dev.bs lba).reserved)
           + u32 ((dev.bs lba).fat32_length * (dev.bs lba).fats))
         root_cluster := (dev.bs lba).root_cluster
         cluster_size := (dev.bs lba).cluster_size },
       none) := by
  unfold process_boot_sector
  rw [if_neg (by simp [h]), if_pos hfs]

/-- Claim C1 witness: the amended statement evaluated on the `"NONE "`
device. -/
theorem fat_c1_witness :
    process_boot_sector devC1x 0 ⟨0, 0, 0, 0⟩
      = ([Ev.read 0 1, Ev.puti 5], ⟨1, 2, 2, 1⟩, none) := by
  rw [fat_c1_amended devC1x 0 ⟨0, 0, 0, 0⟩ rfl (by decide)]
  decide

/-- Claim C8 counterexample: `find_file` uses `strncmp(·, ·, 11)`, which
stops successfully at a NUL byte common to both names, so it can return an
entry whose 11-byte name field does NOT match the searched name
byte-for-byte: entry name `[75,0,1,…]` is returned for searched name
`[75,0,2,…]` although the names differ at byte 2. -/
theorem fat_c8_cex :
    find_file [entN] nameN = some entN
    ∧ entN.name.getD 2 0 ≠ nameN.getD 2 0 := by
  decide

/-- Claim C8 (amended): `find_file` scans entries in order, stops early
(not found) at the first entry whose name's first byte is 0, skips every
entry with the volume-label or directory attribute bit, and returns the
first remaining entry whose name matches the requested name under C
`strncmp(·, ·, 11)` semantics — byte-for-byte comparison that stops
successfully at a shared NUL byte; if the scan completes without a match
it returns not-found.  For names without NUL bytes among the first 11
(every real blank-padded 8.3 name), the `strncmp` match is exactly
byte-for-byte equality of the 11 bytes including padding (second
conjunct). -/
theorem fat_c8_amended :
    (∀ (entries : List dir_entry) (name : List Nat),
      find_file entries name =
        (entries.takeWhile (fun e => e.name.getD 0 0 != 0)).find?
          (fun e => (e.attr &&& (ATTR_VOLUME ||| ATTR_DIR) == 0)
            && strncmpEq e.name name 0 11))
    ∧ (∀ a b : List Nat, (∀ i, i < 11 → a.getD i 0 ≠ 0) →
        (strncmpEq a b 0 11 = true ↔ ∀ i, i < 11 → a.getD i 0 = b.getD i 0)) := by
  constructor
  · intro entries name
    induction entries with
    | nil => simp [find_file]
    | cons e rest ih =>
      simp only [List.getD_eq_getElem?_getD] at ih
      simp only [find_file, List.takeWhile, List.getD_eq_getElem?_getD]
      by_cases h0 : e.name[0]?.getD 0 = 0
      · simp [h0]
      · have h0' : (e.name[0]?.getD 0 != 0) = true := by simp [h0]
        by_cases hattr : e.attr &&& (ATTR_VOLUME ||| ATTR_DIR) = 0
        · by_cases hm : strncmpEq e.name name 0 11 = true
          · simp [h0, h0', hattr, hm, List.find?]
          · simp only [Bool.not_eq_true] at hm
            simp [h0, h0', hattr, hm, List.find?, ih]
        · have hattr' : (e.attr &&& (ATTR_VOLUME ||| ATTR_DIR) == 0) = false := by
            simp [hattr]
          simp [h0, h0', hattr, hattr', List.find?, ih]
  · have key : ∀ (n i : Nat) (a b : List Nat),
        (∀ j, j < n → a.getD (i + j) 0 ≠ 0) →
        (strncmpEq a b i n = true ↔ ∀ j, j < n → a.getD (i + j) 0 = b.getD (i + j) 0) := by
      intro n
      induction n with
      | zero => intro i a b _; simp [strncmpEq]
      | succ m ih =>
        intro i a b hz
        have ha0 : a.getD i 0 ≠ 0 := by simpa using hz 0 (by omega)
        by_cases he : a.getD i 0 = b.getD i 0
        · rw [strncmpEq, if_neg (by simpa using he), if_neg ha0]
          rw [ih (i + 1) a b (by
            intro j hj
            have := hz (j + 1) (by omega)
            rwa [show i + (j + 1) = i + 1 + j from by ring] at this)]
          constructor
          · intro h j hj
            match j with
            | 0 => simpa using he
            | j'+1 =>
              have := h j' (by omega)
              rwa [show i + 1 + j' = i + (j' + 1) from by ring] at this
          · intro h j hj
            have := h (j + 1) (by omega)
            rwa [show i + 1 + j = i + (j + 1) from by ring]
        · rw [strncmpEq, if_pos (by simpa using he)]
          simp only [Bool.false_eq_true, false_iff]
          exact fun h => he (by simpa using h 0 (by omega))
    intro a b h
    have := key 11 0 a b (by simpa using h)
    simpa using this

/-- Claim C8 witness: the amended match is byte-for-byte on the NUL-free
name `"KERNEL  BIN"`, which matches itself. -/
theorem fat_c8_witness : strncmpEq nameK nameK 0 11 = true :=
  (fat_c8_amended.2 nameK nameK (by decide)).mpr (by decide)

/-- Claim C2 counterexample: the one-cluster chain `[0x0fffffef]` is a
finite chain — its FAT entry `0x0ffffff0 ≥ 0x0FFFFFF0` is an end-of-chain
sentinel per the spec's own definition — consisting of one maximal run of
`k = 1` cluster, so the claim predicts a single data read of
`1 × cluster_size = 1` sector.  The code instead issues a single data read
of 2 sectors, because the sentinel value is numerically `cluster + 1` and
the inner loop absorbs it into the batch before the termination check. -/
theorem fat_c2_cex :
    fatEnt devC2x geoM 268435439 = 268435440
    ∧ (load_from_cluster devC2x geoM 5 268435439 0 (ibW 0)).1.filter Ev.isData
        = [Ev.readData 268435437 2]
    ∧ Ev.readData 268435437 2
        ≠ Ev.readData (dataSec geoM 268435439) (1 * geoM.cluster_size) := by
  decide

/-- Claim C2 (amended): for every finite cluster chain whose clusters are
valid data clusters (each run `(c, k)` satisfies `2 ≤ c` and
`c + k ≤ 0x0FFFFFF0`) and whose every inter-run successor and terminating
value is reached non-contiguously (never numerically `previous + 1`, as
`ChainOk` requires — the code checks termination only at batch
boundaries), `load_from_cluster` issues exactly one data read per maximal
run: a run of `k` clusters starting at `c` produces a single read of
`k × cluster_size` sectors starting at `dataSec geo c`, which by
`dataSec_eq` (second conjunct) is `data_region_start + (c − 2) ×
cluster_size` whenever that value fits in 32 bits. -/
theorem fat_c2_amended (dev : Mmc) (geo : Geo) (t s len : Nat)
    (rest : List (Nat × Nat)) (fuel addr : Nat) (ibuf : Nat → Nat)
    (hco : ChainOk dev geo ((s, len) :: rest) t)
    (hfuel : sumLen ((s, len) :: rest) + ((s, len) :: rest).length ≤ fuel) :
    ((load_from_cluster dev geo fuel s addr ibuf).1.filter Ev.isData =
      ((s, len) :: rest).map
        (fun p => Ev.readData (dataSec geo p.1) (p.2 * geo.cluster_size)))
    ∧ (∀ c, 2 ≤ c → c < 4294967296 →
        geo.lba_data + (c - 2) * geo.cluster_size < 4294967296 →
        dataSec geo c = geo.lba_data + (c - 2) * geo.cluster_size) := by
  constructor
  · rw [load_from_cluster_chain dev geo t s len rest fuel addr ibuf hco hfuel]
    exact filter_isData_chainEvs geo _ _
  · exact fun c h2 hc h => dataSec_eq geo c h2 hc h

/-- Claim C2 witness: the non-contiguous chain `[10], [15]` (the claim's
`[c, c+5]` example at `c = 10`) produces exactly two data reads of
`cluster_size = 1` sector each, at the data sectors of clusters 10 and 15. -/
theorem fat_c2_witness :
    ChainOk devC2w geoM [(10, 1), (15, 1)] 268435448
    ∧ (load_from_cluster devC2w geoM 10 10 0 (ibW 0)).1.filter Ev.isData
        = [Ev.readData 8 1, Ev.readData 13 1] := by
  refine ⟨by decide, ?_⟩
  rw [(fat_c2_amended devC2w geoM 268435448 10 1 [(15, 1)] 10 0 (ibW 0)
    (by decide) (by decide)).1]
  decide

/-- Claim C3 counterexample: a FAT whose successor chain from the start
cluster `0x0fffffef` reaches the end-of-chain sentinel `0x0ffffff0` at the
very first step (first conjunct), yet `load_from_cluster` never
terminates: the sentinel is numerically contiguous, so it is absorbed into
the batch without a termination check, and its own FAT entry points back
to the start cluster, producing an infinite loop (second conjunct: the
call runs out of any amount of fuel). -/
theorem fat_c3_cex :
    fatEnt devCyc geoM 268435439 = 268435440
    ∧ NeverTerminates devCyc geoM 268435439 0 (ibW 0) := by
  constructor
  · decide
  · have key : ∀ (fuel addr : Nat),
        (load_outer devCyc geoM fuel 268435439 2097151 addr
          (devCyc.word 2097151)).2.2 = LoadRes.noFuel := by
      intro fuel
      induction fuel using Nat.strong_induction_on with
      | _ fuel ih =>
        match fuel with
        | 0 => intro addr; simp [load_outer]
        | f + 1 =>
          intro addr
          simp only [load_outer]
          rw [show geoM.cluster_size = 1 from rfl]
          rw [load_inner_step devCyc geoM f 268435439 2097151 1
            (devCyc.word 2097151) (by decide) rfl (Or.inr rfl)]
          rw [if_pos
            (show fatEnt devCyc geoM 268435439 = u32 (268435439 + 1) from by decide)]
          rw [show fatEnt devCyc geoM 268435439 = 268435440 from by decide,
            show fatSec geoM 268435439 = 2097151 from by decide,
            show u32 (1 + geoM.cluster_size) = 2 from by decide]
          match f with
          | 0 => simp [load_inner]
          | f' + 1 =>
            rw [load_inner_step devCyc geoM f' 268435440 2097151 2
              (devCyc.word 2097151) (by decide) rfl (Or.inr rfl)]
            rw [if_neg
              (show ¬ (fatEnt devCyc geoM 268435440 = u32 (268435440 + 1)) from
                by decide)]
            rw [show fatEnt devCyc geoM 268435440 = 268435439 from by decide,
              show fatSec geoM 268435440 = 2097151 from by decide]
            dsimp only
            rw [if_neg
              (show ¬ (devCyc.readOk (dataSec geoM 268435439) 2 = false) from
                by decide)]
            rw [if_neg
              (show ¬ (268435440 ≤ 268435439 ∨ 268435439 ≤ 1) from by decide)]
            dsimp only
            exact ih (f' + 1) (by omega) _
    intro fuel
    match fuel with
    | 0 => simp [load_from_cluster, load_outer]
    | f + 1 =>
      unfold load_from_cluster
      rw [show u32 268435439 = 268435439 from by decide]
      simp only [load_outer]
      rw [show geoM.cluster_size = 1 from rfl]
      rw [load_inner_step devCyc geoM f 268435439 4294967295 1 (ibW 0)
        (by decide) rfl (Or.inl rfl)]
      rw [if_pos
        (show fatEnt devCyc geoM 268435439 = u32 (268435439 + 1) from by decide)]
      rw [show fatEnt devCyc geoM 268435439 = 268435440 from by decide,
        show fatSec geoM 268435439 = 2097151 from by decide,
        show u32 (1 + geoM.cluster_size) = 2 from by decide]
      match f with
      | 0 => simp [load_inner]
      | f' + 1 =>
        rw [load_inner_step devCyc geoM f' 268435440 2097151 2
          (devCyc.word 2097151) (by decide) rfl (Or.inr rfl)]
        rw [if_neg
          (show ¬ (fatEnt devCyc geoM 268435440 = u32 (268435440 + 1)) from
            by decide)]
        rw [show fatEnt devCyc geoM 268435440 = 268435439 from by decide,
          show fatSec geoM 268435440 = 2097151 from by decide]
        dsimp only
        rw [if_neg
          (show ¬ (devCyc.readOk (dataSec geoM 268435439) 2 = false) from
            by decide)]
        rw [if_neg
          (show ¬ (268435440 ≤ 268435439 ∨ 268435439 ≤ 1) from by decide)]
        dsimp only
        exact key (f' + 1) _

/-- Claim C3 (amended): for every FAT realising a finite chain of valid
data clusters whose inter-run successors and terminating value (taken from
the low 28 bits of the 32-bit FAT entries) are reached non-contiguously —
so the termination values, whether `≥ 0x0FFFFFF0` or `≤ 1`, are visible at
a batch boundary — and whose device reads succeed, `load_from_cluster`
terminates normally (not with an error) and returns the initial
destination pointer plus `total sectors loaded × sector size` bytes, one
past the last byte written. -/
theorem fat_c3_amended (dev : Mmc) (geo : Geo) (t s len : Nat)
    (rest : List (Nat × Nat)) (fuel addr : Nat) (ibuf : Nat → Nat)
    (hco : ChainOk dev geo ((s, len) :: rest) t)
    (hfuel : sumLen ((s, len) :: rest) + ((s, len) :: rest).length ≤ fuel) :
    (load_from_cluster dev geo fuel s addr ibuf).2.2 =
      LoadRes.ok (addr
        + (geo.cluster_size * sumLen ((s, len) :: rest)) * 512) := by
  rw [load_from_cluster_chain dev geo t s len rest fuel addr ibuf hco hfuel]
  dsimp only
  congr 1
  ring

/-- Claim C3 witness: the chain `[10, 11], [20]` with one-sector clusters
loads 3 sectors and returns the destination advanced by `3 × 512 = 1536`
bytes. -/
theorem fat_c3_witness :
    ChainOk devC3w geoM [(10, 2), (20, 1)] 268435448
    ∧ (load_from_cluster devC3w geoM 10 10 0 (ibW 0)).2.2 = LoadRes.ok 1536 := by
  refine ⟨by decide, ?_⟩
  rw [fat_c3_amended devC3w geoM 268435448 10 2 [(20, 1)] 10 0 (ibW 0)
    (by decide) (by decide)]
  decide

/-- Claim C6: during one `load_from_cluster` call over a chain, a
FAT-sector device read is issued only when the entry's FAT sector differs
from the cached one (the trace equals the cache-mirroring `chainEvs`, by
`load_from_cluster_chain`); consequently, for the contiguous chain
`[c, c+1, c+2]` whose FAT entries all lie in the same FAT sector
(`c / 128 = (c + 2) / 128`; `128 = sector_size / 4` entries per sector),
exactly one FAT-sector read is issued for the whole call. -/
theorem fat_c6 (dev : Mmc) (geo : Geo) (t c fuel addr : Nat)
    (ibuf : Nat → Nat)
    (hco : ChainOk dev geo [(c, 3)] t)
    (hsame : c / 128 = (c + 2) / 128)
    (hfuel : 4 ≤ fuel) :
    (load_from_cluster dev geo fuel c addr ibuf).1.filter Ev.isFat
      = [Ev.readFat (fatSec geo c)] := by
  have hb : FAT_BLOCK_SIZE >>> 2 = 128 := rfl
  have hd1 : (c + 1) / 128 = c / 128 := by
    have hle1 : c / 128 ≤ (c + 1) / 128 := Nat.div_le_div_right (by omega)
    have hle2 : (c + 1) / 128 ≤ (c + 2) / 128 := Nat.div_le_div_right (by omega)
    omega
  have hd2 : (c + 2) / 128 = c / 128 := hsame.symm
  have hs1 : fatSec geo (c + 1) = fatSec geo c := by
    unfold fatSec; rw [hb, hd1]
  have hs2 : fatSec geo (c + 2) = fatSec geo c := by
    unfold fatSec; rw [hb, hd2]
  obtain ⟨_, _, _, _, _, hns, _, _, _⟩ := hco.1
  have h0 : fatSec geo c ≠ 4294967295 := by
    have := (hns 0 (by omega)).1
    simpa using this
  rw [load_from_cluster_chain dev geo t c 3 [] fuel addr ibuf hco
    (by simp [sumLen]; omega)]
  rw [chainEvs, fatReadEvs_same_sector geo c hs1 hs2 h0]
  simp [chainEvs, Ev.isFat]

/-- Claim C6 witness: the contiguous chain `[10, 11, 12]` (entries all in
FAT sector 0) issues exactly one FAT-sector read. -/
theorem fat_c6_witness :
    ChainOk devC6w geoM [(10, 3)] 268435448
    ∧ (load_from_cluster devC6w geoM 10 10 0 (ibW 0)).1.filter Ev.isFat
        = [Ev.readFat 0] := by
  refine ⟨by decide, ?_⟩
  rw [fat_c6 devC6w geoM 268435448 10 10 0 (ibW 0) (by decide) (by decide)
    (by omega)]
  decide

/-- Claim C10 counterexample: for start cluster 1 (which satisfies the
termination condition `≤ 1`), with `fat[1] = 2` the masked successor is
numerically `start + 1`, so the inner loop absorbs cluster 2 into the
batch: the call performs one FAT read and ONE data read of
`2 × cluster_size = 8` sectors (not `cluster_size = 4`), and returns the
destination advanced by `8 × 512 = 4096` bytes (not `4 × 512 = 2048`),
with geometry `⟨100, 200, 2, 4⟩`. -/
theorem fat_c10_cex :
    ((268435440 ≤ (1 : Nat)) ∨ ((1 : Nat) ≤ 1))
    ∧ load_from_cluster devC10x ⟨100, 200, 2, 4⟩ 5 1 0 (ibW 0)
        = ([Ev.readFat 100, Ev.readData 196 8],
           [196, 197, 198, 199, 200, 201, 202, 203], LoadRes.ok 4096)
    ∧ (8 : Nat) ≠ (⟨100, 200, 2, 4⟩ : Geo).cluster_size
    ∧ LoadRes.ok 4096
        ≠ LoadRes.ok (0 + (⟨100, 200, 2, 4⟩ : Geo).cluster_size * 512) := by
  decide

/-- Claim C10 (amended): for every start cluster already satisfying the
termination condition (`≥ 0x0FFFFFF0` or `≤ 1`), provided its masked FAT
entry is itself a terminating value, is not numerically `start + 1`, and
its FAT sector is readable and differs from the impossible cache marker
`0xFFFFFFFF`, `load_from_cluster` does not return immediately: it performs
one FAT-sector read and one data read of `cluster_size` sectors at sector
`dataSec geo start` — the source's `lba_data + (start - 2) * cluster_size`
computed modulo `2^32`, which wraps around for start clusters `≤ 1` —
before terminating, and returns the destination pointer advanced by
`cluster_size × 512` bytes (both reads succeeding), because the sentinel
check runs only after the first batch's data read. -/
theorem fat_c10_amended (dev : Mmc) (geo : Geo) (start addr fuel : Nat)
    (ibuf : Nat → Nat)
    (hs : start < 4294967296)
    (_hsent : 268435440 ≤ start ∨ start ≤ 1)
    (he : fatEnt dev geo start ≠ u32 (start + 1))
    (hes : 268435440 ≤ fatEnt dev geo start ∨ fatEnt dev geo start ≤ 1)
    (hfs : fatSec geo start ≠ 4294967295)
    (hr1 : dev.readOk (fatSec geo start) 1 = true)
    (hr2 : dev.readOk (dataSec geo start) geo.cluster_size = true)
    (hcs : geo.cluster_size * 512 < 4294967296)
    (hfuel : 1 ≤ fuel) :
    load_from_cluster dev geo fuel start addr ibuf =
      ([Ev.readFat (fatSec geo start),
        Ev.readData (dataSec geo start) geo.cluster_size],
       (List.range geo.cluster_size).map (fun i => dataSec geo start + i),
       LoadRes.ok (addr + geo.cluster_size * 512)) := by
  obtain ⟨f, rfl⟩ : ∃ f, fuel = f + 1 := ⟨fuel - 1, by omega⟩
  unfold load_from_cluster
  rw [u32_eq_of_lt hs]
  simp only [load_outer]
  rw [load_inner_run dev geo (fatEnt dev geo start) 0 start 4294967295
    geo.cluster_size ibuf (f + 1) (by omega)
    (fun i hi => absurd hi (Nat.not_lt_zero i))
    (by simp)
    (by simpa using he)
    (by
      intro i hi
      obtain rfl : i = 0 := by omega
      simp only [Nat.add_zero]
      exact ⟨hfs, hr1⟩)
    (Or.inl rfl)]
  dsimp only
  rw [show start + 0 = start from rfl] at *
  simp only [fatReadEvs, addN, Nat.add_zero]
  rw [if_pos hfs]
  rw [if_neg (by simp [hr2])]
  rw [if_pos hes]
  have hoff : u32 (geo.cluster_size * FAT_BLOCK_SIZE)
      = geo.cluster_size * 512 := by
    simpa [FAT_BLOCK_SIZE] using u32_eq_of_lt hcs
  rw [hoff]
  simp

/-- Claim C10 witness: start cluster 1 with a non-contiguous end-of-chain
entry and geometry `⟨100, 200, 2, 4⟩`: one FAT read of sector 100, one
data read of 4 sectors at the wrapped-around sector 196, returning
`0 + 4 × 512 = 2048`. -/
theorem fat_c10_witness :
    load_from_cluster devC10w ⟨100, 200, 2, 4⟩ 2 1 0 (ibW 0)
      = ([Ev.readFat 100, Ev.readData 196 4],
         [196, 197, 198, 199], LoadRes.ok 2048) := by
  rw [fat_c10_amended devC10w ⟨100, 200, 2, 4⟩ 1 0 2 (ibW 0) (by norm_num)
    (Or.inr (by norm_num)) (by decide) (by decide) (by decide) rfl rfl
    (by norm_num) (by norm_num)]
  decide

/-- Claim C4: for both values of the `alt` flag, `mmc_load_kernel`
searches the two candidate filenames in priority order — primary first
when the flag is 0, alternate first when it is nonzero — and on a
successful chain load of a found candidate returns success signalling
which candidate was used: 0 exactly when the primary name was loaded and 1
exactly when the alternate name was loaded.  The four conjuncts cover
first-priority and second-priority hits for both flag values; the
hypotheses fix the successful partition/boot-sector parse and root load. -/
theorem fat_c4 (dev : Mmc) (cfg : Config) (fuel addr : Nat) (alt : Int)
    (g0 : Geo) (ibuf : Nat → Nat → Nat)
    (e1 : List Ev) (lba : Nat) (e2 : List Ev) (geo : Geo)
    (e3 : List Ev) (S : List Nat) (x : Nat)
    (H1 : get_first_partition dev = (e1, some lba))
    (H2 : process_boot_sector dev lba g0 = (e2, geo, some ()))
    (H3 : load_from_cluster dev geo fuel geo.root_cluster addr (ibuf 0)
      = (e3, S, LoadRes.ok x)) :
    (alt = 0 → ∀ ep,
      find_file (entriesOfSecs dev S) cfg.FAT_BOOTFILE_NAME = some ep →
      ∀ y, (load_from_cluster dev geo fuel (start_cluster ep) addr
        (ibuf 1)).2.2 = LoadRes.ok y →
      (mmc_load_kernel dev cfg fuel addr alt g0 ibuf).2 = some 0)
    ∧ (alt = 0 →
        find_file (entriesOfSecs dev S) cfg.FAT_BOOTFILE_NAME = none →
        ∀ ea, find_file (entriesOfSecs dev S) cfg.FAT_BOOTFILE_ALT_NAME = some ea →
        ∀ y, (load_from_cluster dev geo fuel (start_cluster ea) addr
          (ibuf 1)).2.2 = LoadRes.ok y →
        (mmc_load_kernel dev cfg fuel addr alt g0 ibuf).2 = some 1)
    ∧ (alt ≠ 0 → ∀ ea,
        find_file (entriesOfSecs dev S) cfg.FAT_BOOTFILE_ALT_NAME = some ea →
        ∀ y, (load_from_cluster dev geo fuel (start_cluster ea) addr
          (ibuf 1)).2.2 = LoadRes.ok y →
        (mmc_load_kernel dev cfg fuel addr alt g0 ibuf).2 = some 1)
    ∧ (alt ≠ 0 →
        find_file (entriesOfSecs dev S) cfg.FAT_BOOTFILE_ALT_NAME = none →
        ∀ ep, find_file (entriesOfSecs dev S) cfg.FAT_BOOTFILE_NAME = some ep →
        ∀ y, (load_from_cluster dev geo fuel (start_cluster ep) addr
          (ibuf 1)).2.2 = LoadRes.ok y →
        (mmc_load_kernel dev cfg fuel addr alt g0 ibuf).2 = some 0) := by
  refine ⟨?_, ?_, ?_, ?_⟩
  · intro halt ep hfind y hok
    subst halt
    simp only [mmc_load_kernel, H1, H2]
    rw [mlk_loop_none dev cfg geo fuel addr 0 ibuf 2 0 0 0 e3 S x (by omega) H3]
    dsimp only
    rw [mlk_loop_found dev cfg geo fuel addr 0 ibuf 2 0
      (entriesOfSecs dev S) 0 1 ep y (by omega) (by simp [cBool, hfind]) hok]
    simp [cNot]
  · intro halt hfind0 ea hfind y hok
    subst halt
    simp only [mmc_load_kernel, H1, H2]
    rw [mlk_loop_none dev cfg geo fuel addr 0 ibuf 2 0 0 0 e3 S x (by omega) H3]
    dsimp only
    rw [mlk_loop_notfound dev cfg geo fuel addr 0 ibuf 2 0
      (entriesOfSecs dev S) 0 1 (by omega) (by simp [cBool, hfind0])]
    norm_num
    rw [mlk_loop_found dev cfg geo fuel addr 0 ibuf 1 1
      (entriesOfSecs dev S) 0 1 ea y (by omega) (by simp [cBool, hfind]) hok]
    simp [cNot]
  · intro halt ea hfind y hok
    simp only [mmc_load_kernel, H1, H2]
    rw [mlk_loop_none dev cfg geo fuel addr alt ibuf 2 0 0 0 e3 S x (by omega) H3]
    dsimp only
    rw [mlk_loop_found dev cfg geo fuel addr alt ibuf 2 0
      (entriesOfSecs dev S) 0 1 ea y (by omega) (by simp [cBool, halt, hfind]) hok]
    simp [cNot, halt]
  · intro halt hfind0 ep hfind y hok
    simp only [mmc_load_kernel, H1, H2]
    rw [mlk_loop_none dev cfg geo fuel addr alt ibuf 2 0 0 0 e3 S x (by omega) H3]
    dsimp only
    rw [mlk_loop_notfound dev cfg geo fuel addr alt ibuf 2 0
      (entriesOfSecs dev S) 0 1 (by omega) (by simp [cBool, halt, hfind0])]
    norm_num
    rw [mlk_loop_found dev cfg geo fuel addr alt ibuf 1 1
      (entriesOfSecs dev S) 0 1 ep y (by omega) (by simp [cBool, halt, hfind]) hok]
    simp [cNot, halt]

/-- Claim C4 witness: on the healthy device with `alt = 0` the primary
name `"KERNEL  BIN"` is found and loaded, and the call returns 0. -/
theorem fat_c4_witness :
    (mmc_load_kernel devW cfgW 10 0 0 ⟨0, 0, 0, 0⟩ ibW).2 = some 0 :=
  (fat_c4 devW cfgW 10 0 0 ⟨0, 0, 0, 0⟩ ibW
    [Ev.read 0 1] 1 [Ev.read 1 1, Ev.puts] ⟨2, 3, 2, 1⟩
    [Ev.readFat 2, Ev.readData 3 1] [3] 512
    (by decide) (by decide) (by decide)).1 rfl entK (by decide) 512 (by decide)

/-- Claim C5: if a found candidate's cluster-chain load fails in
`mmc_load_kernel`, the error is remembered and the directory snapshot is
discarded, so the root directory is reloaded from the device (the reload's
events `e5` appear in the trace) before the next candidate is searched;
when no attempt succeeds the final result is `-1`: via the remembered
error without the `NotFound` diagnostic if a load failed (first conjunct —
the trace ends with the reload, no `puti 7`), and via the `NotFound`
diagnostic `puti 7` if neither candidate was found (second conjunct). -/
theorem fat_c5 (dev : Mmc) (cfg : Config) (fuel addr : Nat) (alt : Int)
    (g0 : Geo) (ibuf : Nat → Nat → Nat)
    (e1 : List Ev) (lba : Nat) (e2 : List Ev) (geo : Geo)
    (e3 : List Ev) (S : List Nat) (x : Nat)
    (H1 : get_first_partition dev = (e1, some lba))
    (H2 : process_boot_sector dev lba g0 = (e2, geo, some ()))
    (H3 : load_from_cluster dev geo fuel geo.root_cluster addr (ibuf 0)
      = (e3, S, LoadRes.ok x)) :
    (∀ e0 e4 S4 e5 S5 y,
      (if (0 : Nat) = cBool alt
        then find_file (entriesOfSecs dev S) cfg.FAT_BOOTFILE_NAME
        else find_file (entriesOfSecs dev S) cfg.FAT_BOOTFILE_ALT_NAME) = some e0 →
      load_from_cluster dev geo fuel (start_cluster e0) addr (ibuf 1)
        = (e4, S4, LoadRes.fail) →
      load_from_cluster dev geo fuel geo.root_cluster addr (ibuf 2)
        = (e5, S5, LoadRes.ok y) →
      (if (1 : Nat) = cBool alt
        then find_file (entriesOfSecs dev S5) cfg.FAT_BOOTFILE_NAME
        else find_file (entriesOfSecs dev S5) cfg.FAT_BOOTFILE_ALT_NAME) = none →
      mmc_load_kernel dev cfg fuel addr alt g0 ibuf
        = (e1 ++ e2 ++ e3 ++ [Ev.puts] ++ e4 ++ e5, some (-1)))
    ∧ (find_file (entriesOfSecs dev S) cfg.FAT_BOOTFILE_NAME = none →
       find_file (entriesOfSecs dev S) cfg.FAT_BOOTFILE_ALT_NAME = none →
       mmc_load_kernel dev cfg fuel addr alt g0 ibuf
        = (e1 ++ e2 ++ e3 ++ [Ev.puti 7], some (-1))) := by
  constructor
  · intro e0 e4 S4 e5 S5 y hf0 hl0 hre hf1
    simp only [mmc_load_kernel, H1, H2]
    rw [mlk_loop_none dev cfg geo fuel addr alt ibuf 2 0 0 0 e3 S x (by omega) H3]
    dsimp only
    rw [mlk_loop_failload dev cfg geo fuel addr alt ibuf 2 0
      (entriesOfSecs dev S) 0 1 e0 e4 S4 (by omega) hf0 hl0]
    norm_num
    rw [mlk_loop_none dev cfg geo fuel addr alt ibuf 1 1 (-1) 2 e5 S5 y
      (by omega) hre]
    dsimp only
    rw [mlk_loop_notfound dev cfg geo fuel addr alt ibuf 1 1
      (entriesOfSecs dev S5) (-1) 3 (by omega) hf1]
    norm_num
    rw [mlk_loop_done]
    simp
  · intro hp ha
    simp only [mmc_load_kernel, H1, H2]
    rw [mlk_loop_none dev cfg geo fuel addr alt ibuf 2 0 0 0 e3 S x (by omega) H3]
    dsimp only
    rw [mlk_loop_notfound dev cfg geo fuel addr alt ibuf 2 0
      (entriesOfSecs dev S) 0 1 (by omega)
      (by by_cases h : (0 : Nat) = cBool alt <;> simp [h, hp, ha])]
    norm_num
    rw [mlk_loop_notfound dev cfg geo fuel addr alt ibuf 1 1
      (entriesOfSecs dev S) 0 1 (by omega)
      (by by_cases h : (1 : Nat) = cBool alt <;> simp [h, hp, ha])]
    norm_num
    rw [mlk_loop_done]
    simp

/-- Claim C5 witness: on the device whose kernel data read fails, with
`alt = 0`: the primary candidate is found, its load fails (events
`[readFat 2, readData 4 1, puti 3]`), the root directory is reloaded
(events `[readFat 2, readData 3 1]` again), the alternate candidate is not
found, and the call returns `-1` with no `puti 7` in the trace. -/
theorem fat_c5_witness :
    mmc_load_kernel devF cfgW 10 0 0 ⟨0, 0, 0, 0⟩ ibW
      = ([Ev.read 0 1] ++ [Ev.read 1 1, Ev.puts]
          ++ [Ev.readFat 2, Ev.readData 3 1] ++ [Ev.puts]
          ++ [Ev.readFat 2, Ev.readData 4 1, Ev.puti 3]
          ++ [Ev.readFat 2, Ev.readData 3 1], some (-1)) :=
  (fat_c5 devF cfgW 10 0 0 ⟨0, 0, 0, 0⟩ ibW
    [Ev.read 0 1] 1 [Ev.read 1 1, Ev.puts] ⟨2, 3, 2, 1⟩
    [Ev.readFat 2, Ev.readData 3 1] [3] 512
    (by decide) (by decide) (by decide)).1
    entK [Ev.readFat 2, Ev.readData 4 1, Ev.puti 3] []
    [Ev.readFat 2, Ev.readData 3 1] [3] 512
    (by decide) (by decide) (by decide) (by decide)

example :
    get_first_partition
      { readOk := fun _ _ => true
        mbr := { partitions := fun _ => ⟨0, 7⟩, signature := 43605 }
        bs := fun _ => ⟨1, 1, 1, 1, 2⟩
        vinfo := fun _ => ⟨fat32Tag⟩
        word := fun _ _ => 0
        dirEnt := fun _ _ => ⟨[0], 0, 0, 0⟩ } = ([Ev.read 0 1], some 7) := by
  decide

end UBIBoot
